import Mathlib

/-!
Shallow embedding of the session-continuity and transcript-management core
of the chat frontend (src/frontend/src/App.jsx and
src/frontend/src/services/api.js).

Modelling conventions:
- React state hooks become fields of an explicit `AppState` record; the
  `localStorage` key `chat_session_id` is the field `storedSessionId`.
- JavaScript `Date` timestamps become `Nat`; the nondeterministic pair
  `Date.now()` / `Math.random().toString(36).substr(2, 9)` becomes explicit
  parameters `now : Nat` and `rand : String` fed to `genSessionId`.
- Absent JavaScript object fields become `Option.none`.
- A network call that can reject becomes an `Except Unit` input supplied to
  the handler; the handler body mirrors the try/catch/finally of the source.
- JavaScript falsy checks on nullable strings (`if (savedId)`,
  `if (!resumeSessionId)`) are modelled on `Option String`, with the empty
  string also counting as falsy.
-/

/-- A transcript message as built by App.jsx.  Fields that a given code path
does not set are `none`, mirroring absent object fields. -/
structure Message where
  role : String
  content : String
  timestamp : Nat
  isError : Option Bool := none
  type : Option String := none
  isComplete : Option Bool := none
deriving DecidableEq, Repr

/-- The client state: React hook values plus the persisted storage slot. -/
structure AppState where
  messages : List Message
  inputMessage : String
  isLoading : Bool
  showResumeModal : Bool
  resumeSessionId : Option String
  sessionId : Option String
  storedSessionId : Option String
deriving DecidableEq, Repr

/-- The fixed welcome text seeded by `startNewSession` (App.jsx line 51). -/
def welcomeText : String :=
  "Merhaba! Ben Güllüoğlu İnşaat, yapay zeka destekli kişisel emlak danışmanınızım. Size en uygun yaşam alanını bulmak için buradayım. Öncelikle tanışabilmemiz için isim ve soyisminizi öğrenebilir miyim?"

/-- The fixed apology text appended on a failed send (App.jsx line 132). -/
def errorText : String :=
  "Üzgünüm, bir hata oluştu. Lütfen tekrar deneyin."

/-- Session identifier construction (App.jsx line 46):
`session-<Date.now()>-<random suffix>`. -/
def genSessionId (now : Nat) (rand : String) : String :=
  "session-" ++ toString now ++ "-" ++ rand

/-- The single seeded assistant welcome message (App.jsx lines 49-53). -/
def welcomeMessage (now : Nat) : Message :=
  { role := "assistant", content := welcomeText, timestamp := now }

/-- `startNewSession` (App.jsx lines 45-55): generate a fresh id, persist it,
replace the transcript with the welcome message, hide the resume modal. -/
def startNewSession (now : Nat) (rand : String) (s : AppState) : AppState :=
  let newId := genSessionId now rand
  { s with
    sessionId := some newId,
    storedSessionId := some newId,
    messages := [welcomeMessage now],
    showResumeModal := false }

/-- `checkSavedSession` (App.jsx lines 32-41): if a session id is saved (and
truthy), hold it as candidate and show the resume modal; otherwise start a
new session immediately. -/
def checkSavedSession (now : Nat) (rand : String) (s : AppState) : AppState :=
  match s.storedSessionId with
  | some savedId =>
      if savedId = "" then startNewSession now rand s
      else { s with resumeSessionId := some savedId, showResumeModal := true }
  | none => startNewSession now rand s

/-- A message as returned by the history endpoint; extra server fields that
the client never reads are irrelevant to the embedding, but we keep the three
the client projects plus representative extras to state the drop property. -/
structure ServerMessage where
  role : String
  content : String
  timestamp : Nat
  type : Option String := none
  is_complete : Option Bool := none
  isError : Option Bool := none
deriving DecidableEq, Repr

/-- The `data` object of a history response; `messages` may be absent. -/
structure HistoryData where
  messages : Option (List ServerMessage)
deriving DecidableEq, Repr

/-- The history response body `{ found, data? }`. -/
structure HistoryResponse where
  found : Bool
  data : Option HistoryData := none
deriving DecidableEq, Repr

/-- `chatAPI.getSessionHistory` (api.js lines 14-22): returns the response
body on success and normalizes any request failure to `{ found: false }`;
it never propagates the exception. -/
def getSessionHistory (raw : Except Unit HistoryResponse) : HistoryResponse :=
  match raw with
  | Except.ok r => r
  | Except.error _ => { found := false }

/-- Role-and-field normalization applied to each restored message
(App.jsx lines 65-69): role `ai` maps to `assistant`, other roles pass
through; only `role`, `content`, `timestamp` are taken. -/
def normalizeMsg (m : ServerMessage) : Message :=
  { role := if m.role = "ai" then "assistant" else m.role,
    content := m.content,
    timestamp := m.timestamp }

/-- `handleResumeSession` (App.jsx lines 57-86).  The raw network outcome of
the history request is the parameter `raw`; `now`/`rand` feed the fallback
`startNewSession`.  The guard mirrors `if (!resumeSessionId) return`; the
branch on `res.found && res.data.messages && res.data.messages.length > 0`
covers the JavaScript truthiness cases, with a missing `data` under
`found: true` raising a TypeError caught by the surrounding catch (same
outcome as the else branch: fall back to a new session); the trailing
record update mirrors the finally block. -/
def handleResumeSession (now : Nat) (rand : String)
    (raw : Except Unit HistoryResponse) (s : AppState) : AppState :=
  match s.resumeSessionId with
  | none => s
  | some rid =>
    if rid = "" then s
    else
      let s1 := { s with isLoading := true }
      let res := getSessionHistory raw
      let s2 :=
        if res.found then
          match res.data with
          | none => startNewSession now rand s1
          | some d =>
            match d.messages with
            | none => startNewSession now rand s1
            | some ms =>
              if ms.length > 0 then
                { s1 with
                  messages := ms.map normalizeMsg,
                  sessionId := some rid,
                  storedSessionId := some rid }
              else startNewSession now rand s1
        else startNewSession now rand s1
      { s2 with isLoading := false, showResumeModal := false }

/-- Model of the JavaScript `String.prototype.trim` used by the send guard:
strip whitespace from both ends.  Written with structural list recursion so
that concrete instances evaluate inside the kernel. -/
def jsTrim (s : String) : String :=
  String.mk (((s.data.dropWhile Char.isWhitespace).reverse.dropWhile
    Char.isWhitespace).reverse)

/-- The reply body of the send-message endpoint. -/
structure ChatReply where
  response : String
  type : Option String := none
  is_complete : Option Bool := none
deriving DecidableEq, Repr

/-- `handleSendMessage` (App.jsx lines 101-140).  `send` is the raw outcome
of `chatAPI.sendMessage`; the guard mirrors
`if (!inputMessage.trim() || isLoading) return`; the optimistic user append,
the success/error appends and the finally block follow the source. -/
def handleSendMessage (now : Nat) (send : Except Unit ChatReply)
    (s : AppState) : AppState :=
  if jsTrim s.inputMessage = "" ∨ s.isLoading then s
  else
    let userMessage : Message :=
      { role := "user", content := s.inputMessage, timestamp := now }
    let s1 := { s with
      messages := s.messages ++ [userMessage],
      inputMessage := "",
      isLoading := true }
    let s2 :=
      match send with
      | Except.ok r =>
          { s1 with messages := s1.messages ++
              [({ role := "assistant", content := r.response, timestamp := now,
                  type := r.type, isComplete := r.is_complete } : Message)] }
      | Except.error _ =>
          { s1 with messages := s1.messages ++
              [({ role := "assistant", content := errorText, timestamp := now,
                  isError := some true } : Message)] }
    { s2 with isLoading := false }

/-- The input field's disabled condition (App.jsx line 262):
`isLoading || showResumeModal`. -/
def inputDisabled (s : AppState) : Bool :=
  s.isLoading || s.showResumeModal

/-- The typing/loading indicator render condition (App.jsx line 240):
`isLoading && !showResumeModal`. -/
def loadingIndicatorShown (s : AppState) : Bool :=
  s.isLoading && !s.showResumeModal

/-- One submitted turn: the text typed into the input, the clock value at
submission, and the reply the server returns for it. -/
structure Turn where
  text : String
  now : Nat
  reply : ChatReply
deriving DecidableEq, Repr

/-- Typing `t.text` into the input and submitting it, with the send
succeeding with `t.reply`. -/
def submitTurn (t : Turn) (s : AppState) : AppState :=
  handleSendMessage t.now (Except.ok t.reply) { s with inputMessage := t.text }

/-- A sequence of successful submitted turns, in order. -/
def runTurns : List Turn → AppState → AppState
  | [], s => s
  | t :: rest, s => runTurns rest (submitTurn t s)

/-- The pair of messages one successful turn appends. -/
def turnUser (t : Turn) : Message :=
  { role := "user", content := t.text, timestamp := t.now }

/-- The assistant message a successful turn appends. -/
def turnAssistant (t : Turn) : Message :=
  { role := "assistant", content := t.reply.response, timestamp := t.now,
    type := t.reply.type, isComplete := t.reply.is_complete }

/-- The full message suffix appended by a list of successful turns. -/
def turnMessages : List Turn → List Message
  | [] => []
  | t :: rest => turnUser t :: turnAssistant t :: turnMessages rest

/-- The strictly alternating role pattern of `n` user/assistant exchanges. -/
def uaRoles : Nat → List String
  | 0 => []
  | n + 1 => "user" :: "assistant" :: uaRoles n

/-- A concrete state holding a two-message restored transcript, obtained by a
successful resume of candidate `session-9-x` against a two-message history. -/
def restoredTwo : AppState :=
  handleResumeSession 50 "r"
    (Except.ok { found := true, data := some { messages := some (
      [{ role := "user", content := "a", timestamp := 1 },
       { role := "ai", content := "b", timestamp := 2 }]) } })
    { messages := [], inputMessage := "", isLoading := false,
      showResumeModal := true, resumeSessionId := some "session-9-x",
      sessionId := none, storedSessionId := some "session-9-x" }

/-- Shared shape lemma: a resume whose history fetch succeeds with
`found = true` and a non-empty `messages` list replaces the transcript,
activates and re-persists the candidate, clears the loading flag and hides
the modal. -/
theorem handleResumeSession_success_eq (now : Nat) (rand rid : String)
    (ms : List ServerMessage) (s : AppState)
    (h1 : s.resumeSessionId = some rid) (h2 : rid ≠ "") (h3 : ms ≠ []) :
    handleResumeSession now rand
        (Except.ok { found := true, data := some { messages := some ms } }) s =
      { s with
        messages := ms.map normalizeMsg,
        sessionId := some rid,
        storedSessionId := some rid,
        isLoading := false,
        showResumeModal := false } := by
  unfold handleResumeSession
  rw [h1]
  simp [getSessionHistory, h2, List.length_pos.mpr h3]

/-- Shared shape lemma: a resume whose decoded history response has
`found = false` or an empty message list falls back to a fresh session. -/
theorem handleResumeSession_fallback_eq (now : Nat) (rand rid : String)
    (raw : Except Unit HistoryResponse) (s : AppState)
    (h1 : s.resumeSessionId = some rid) (h2 : rid ≠ "")
    (hfb : (getSessionHistory raw).found = false ∨
      (getSessionHistory raw).data = some { messages := some [] }) :
    handleResumeSession now rand raw s =
      { s with
        messages := [welcomeMessage now],
        sessionId := some (genSessionId now rand),
        storedSessionId := some (genSessionId now rand),
        isLoading := false,
        showResumeModal := false } := by
  unfold handleResumeSession
  rw [h1]
  rcases hfb with h | h
  · simp [h, h2, startNewSession]
  · by_cases hf : (getSessionHistory raw).found
    · simp [hf, h, h2, startNewSession]
    · simp [hf, h2, startNewSession]

/-- C1: for every resume attempt where the history fetch succeeds with
`found = true` and a non-empty message list, the transcript is replaced by
exactly the normalized returned messages in the order returned, the candidate
identifier becomes the active session identifier, it is re-persisted to the
storage slot, and the resume prompt becomes hidden. -/
theorem resume_success_restores_transcript (now : Nat) (rand rid : String)
    (ms : List ServerMessage) (s : AppState)
    (h1 : s.resumeSessionId = some rid) (h2 : rid ≠ "") (h3 : ms ≠ []) :
    handleResumeSession now rand
        (Except.ok { found := true, data := some { messages := some ms } }) s =
      { s with
        messages := ms.map normalizeMsg,
        sessionId := some rid,
        storedSessionId := some rid,
        isLoading := false,
        showResumeModal := false } :=
  handleResumeSession_success_eq now rand rid ms s h1 h2 h3

/-- Witness for C1 at a concrete one-message history. -/
theorem resume_success_restores_transcript_witness :
    handleResumeSession 9 "zzz"
        (Except.ok { found := true, data := some { messages := some (
          [{ role := "ai", content := "Merhaba", timestamp := 3 }]) } })
        { messages := [], inputMessage := "", isLoading := false,
          showResumeModal := true, resumeSessionId := some "session-1-a",
          sessionId := none, storedSessionId := some "session-1-a" } =
      { messages := [{ role := "assistant", content := "Merhaba", timestamp := 3 }],
        inputMessage := "", isLoading := false, showResumeModal := false,
        resumeSessionId := some "session-1-a", sessionId := some "session-1-a",
        storedSessionId := some "session-1-a" } :=
  resume_success_restores_transcript 9 "zzz" "session-1-a"
    [{ role := "ai", content := "Merhaba", timestamp := 3 }] _
    rfl (by decide) (by decide)

/-- C2: for every resume attempt where the decoded history response has
`found = false` (which includes every request failure, normalized by
`getSessionHistory`) or an empty message list, the outcome is a fresh
session: a single assistant welcome message and a freshly generated session
identifier distinct from the discarded candidate; the raw request failure is
normalized to `found = false` rather than propagated. -/
theorem resume_fallback_fresh_session (now : Nat) (rand rid : String)
    (raw : Except Unit HistoryResponse) (s : AppState)
    (h1 : s.resumeSessionId = some rid) (h2 : rid ≠ "")
    (hfb : (getSessionHistory raw).found = false ∨
      (getSessionHistory raw).data = some { messages := some [] })
    (hfresh : genSessionId now rand ≠ rid) :
    (handleResumeSession now rand raw s =
      { s with
        messages := [welcomeMessage now],
        sessionId := some (genSessionId now rand),
        storedSessionId := some (genSessionId now rand),
        isLoading := false,
        showResumeModal := false })
    ∧ (handleResumeSession now rand raw s).sessionId ≠ some rid
    ∧ getSessionHistory (Except.error ()) = { found := false, data := none } := by
  have h := handleResumeSession_fallback_eq now rand rid raw s h1 h2 hfb
  refine ⟨h, ?_, rfl⟩
  rw [h]
  simp [hfresh]

/-- Witness for C2 at a concrete thrown fetch. -/
theorem resume_fallback_fresh_session_witness :
    (handleResumeSession 2 "bb" (Except.error ())
        { messages := [], inputMessage := "", isLoading := false,
          showResumeModal := true, resumeSessionId := some "session-1-a",
          sessionId := none, storedSessionId := some "session-1-a" } =
      { messages := [welcomeMessage 2], inputMessage := "",
        isLoading := false, showResumeModal := false,
        resumeSessionId := some "session-1-a",
        sessionId := some (genSessionId 2 "bb"),
        storedSessionId := some (genSessionId 2 "bb") })
    ∧ (handleResumeSession 2 "bb" (Except.error ())
        { messages := [], inputMessage := "", isLoading := false,
          showResumeModal := true, resumeSessionId := some "session-1-a",
          sessionId := none, storedSessionId := some "session-1-a" }).sessionId
        ≠ some "session-1-a"
    ∧ getSessionHistory (Except.error ()) = { found := false, data := none } :=
  resume_fallback_fresh_session 2 "bb" "session-1-a" (Except.error ()) _
    rfl (by decide) (Or.inl rfl) (by decide)

/-- C10: invoking the resume handler while the held candidate identifier is
`none` (or the falsy empty string) returns immediately: the whole state is
unchanged for every possible fetch outcome, so no history fetch is issued. -/
theorem resume_without_candidate_noop (now : Nat) (rand : String)
    (raw : Except Unit HistoryResponse) (s : AppState)
    (h : s.resumeSessionId = none ∨ s.resumeSessionId = some "") :
    handleResumeSession now rand raw s = s := by
  unfold handleResumeSession
  rcases h with h | h
  · rw [h]
  · rw [h]
    simp

/-- Witness for C10 at a concrete state with no candidate. -/
theorem resume_without_candidate_noop_witness :
    handleResumeSession 1 "q" (Except.ok { found := true })
        { messages := [], inputMessage := "x", isLoading := false,
          showResumeModal := false, resumeSessionId := none,
          sessionId := none, storedSessionId := none } =
      { messages := [], inputMessage := "x", isLoading := false,
        showResumeModal := false, resumeSessionId := none,
        sessionId := none, storedSessionId := none } :=
  resume_without_candidate_noop 1 "q" (Except.ok { found := true }) _ (Or.inl rfl)

/-- C3: for every submitted turn whose send fails, exactly one assistant
message with the fixed apology text and `isError = true` is appended after
the optimistically appended user message, which keeps the literal submitted
text; nothing else is appended (no retry), the input buffer is cleared, and
the in-flight flag ends false on failure and on success alike. -/
theorem send_failure_appends_single_error (now : Nat) (s : AppState)
    (r : ChatReply) (h1 : jsTrim s.inputMessage ≠ "") (h2 : s.isLoading = false) :
    (handleSendMessage now (Except.error ()) s =
      { s with
        messages := s.messages ++
          [{ role := "user", content := s.inputMessage, timestamp := now },
           { role := "assistant", content := errorText, timestamp := now,
             isError := some true }],
        inputMessage := "",
        isLoading := false })
    ∧ (handleSendMessage now (Except.ok r) s).isLoading = false := by
  constructor
  · unfold handleSendMessage
    simp [h1, h2]
  · unfold handleSendMessage
    simp [h1, h2]

/-- Witness for C3 at a concrete pending message. -/
theorem send_failure_appends_single_error_witness :
    (handleSendMessage 4 (Except.error ())
        { messages := [welcomeMessage 0], inputMessage := "Merhaba",
          isLoading := false, showResumeModal := false, resumeSessionId := none,
          sessionId := some "session-0-a", storedSessionId := some "session-0-a" } =
      { messages := [welcomeMessage 0,
          { role := "user", content := "Merhaba", timestamp := 4 },
          { role := "assistant", content := errorText, timestamp := 4,
            isError := some true }],
        inputMessage := "", isLoading := false, showResumeModal := false,
        resumeSessionId := none, sessionId := some "session-0-a",
        storedSessionId := some "session-0-a" })
    ∧ (handleSendMessage 4 (Except.ok { response := "tamam" })
        { messages := [welcomeMessage 0], inputMessage := "Merhaba",
          isLoading := false, showResumeModal := false, resumeSessionId := none,
          sessionId := some "session-0-a", storedSessionId := some "session-0-a" }).isLoading
      = false :=
  send_failure_appends_single_error 4 _ { response := "tamam" } (by decide) rfl

/-- C4: `startNewSession` yields a session identifier of the literal
`session-<timestamp>-<random suffix>` format, persists it to the storage
slot overwriting any prior value, replaces the transcript with exactly the
one welcome message, and hides the resume prompt; a second call again yields
a single-welcome transcript and (whenever the generated identifier differs,
as the timestamp/random pair makes overwhelmingly likely) a session
identifier different from the first. -/
theorem startNewSession_fresh_and_single_welcome (n1 n2 : Nat) (r1 r2 : String)
    (s : AppState) (hne : genSessionId n2 r2 ≠ genSessionId n1 r1) :
    ((startNewSession n1 r1 s).sessionId = some (genSessionId n1 r1))
    ∧ ((startNewSession n1 r1 s).storedSessionId = some (genSessionId n1 r1))
    ∧ ((startNewSession n1 r1 s).messages = [welcomeMessage n1])
    ∧ ((startNewSession n1 r1 s).showResumeModal = false)
    ∧ ((startNewSession n2 r2 (startNewSession n1 r1 s)).messages = [welcomeMessage n2])
    ∧ ((startNewSession n2 r2 (startNewSession n1 r1 s)).sessionId
        = some (genSessionId n2 r2))
    ∧ ((startNewSession n2 r2 (startNewSession n1 r1 s)).storedSessionId
        = some (genSessionId n2 r2))
    ∧ ((startNewSession n2 r2 (startNewSession n1 r1 s)).sessionId
        ≠ (startNewSession n1 r1 s).sessionId)
    ∧ genSessionId n1 r1 = "session-" ++ toString n1 ++ "-" ++ r1 := by
  refine ⟨rfl, rfl, rfl, rfl, rfl, rfl, rfl, ?_, rfl⟩
  simp [startNewSession, hne]

/-- Witness for C4 at two concrete generator draws. -/
theorem startNewSession_fresh_and_single_welcome_witness :
    ((startNewSession 1 "aaa"
        { messages := [], inputMessage := "", isLoading := false,
          showResumeModal := false, resumeSessionId := none,
          sessionId := none, storedSessionId := none }).sessionId
      = some (genSessionId 1 "aaa"))
    ∧ ((startNewSession 1 "aaa"
        { messages := [], inputMessage := "", isLoading := false,
          showResumeModal := false, resumeSessionId := none,
          sessionId := none, storedSessionId := none }).storedSessionId
      = some (genSessionId 1 "aaa"))
    ∧ ((startNewSession 1 "aaa"
        { messages := [], inputMessage := "", isLoading := false,
          showResumeModal := false, resumeSessionId := none,
          sessionId := none, storedSessionId := none }).messages
      = [welcomeMessage 1])
    ∧ ((startNewSession 1 "aaa"
        { messages := [], inputMessage := "", isLoading := false,
          showResumeModal := false, resumeSessionId := none,
          sessionId := none, storedSessionId := none }).showResumeModal = false)
    ∧ ((startNewSession 2 "bbb" (startNewSession 1 "aaa"
        { messages := [], inputMessage := "", isLoading := false,
          showResumeModal := false, resumeSessionId := none,
          sessionId := none, storedSessionId := none })).messages
      = [welcomeMessage 2])
    ∧ ((startNewSession 2 "bbb" (startNewSession 1 "aaa"
        { messages := [], inputMessage := "", isLoading := false,
          showResumeModal := false, resumeSessionId := none,
          sessionId := none, storedSessionId := none })).sessionId
      = some (genSessionId 2 "bbb"))
    ∧ ((startNewSession 2 "bbb" (startNewSession 1 "aaa"
        { messages := [], inputMessage := "", isLoading := false,
          showResumeModal := false, resumeSessionId := none,
          sessionId := none, storedSessionId := none })).storedSessionId
      = some (genSessionId 2 "bbb"))
    ∧ ((startNewSession 2 "bbb" (startNewSession 1 "aaa"
        { messages := [], inputMessage := "", isLoading := false,
          showResumeModal := false, resumeSessionId := none,
          sessionId := none, storedSessionId := none })).sessionId
      ≠ (startNewSession 1 "aaa"
        { messages := [], inputMessage := "", isLoading := false,
          showResumeModal := false, resumeSessionId := none,
          sessionId := none, storedSessionId := none }).sessionId)
    ∧ genSessionId 1 "aaa" = "session-" ++ toString 1 ++ "-" ++ "aaa" :=
  startNewSession_fresh_and_single_welcome 1 2 "aaa" "bbb" _ (by decide)

/-- C6: a turn submission whose text is empty after trimming, or made while
a prior exchange is still in flight, leaves the whole state unchanged for
every possible send outcome: no transcript mutation, no error entry, the
input buffer is kept, and no network call matters. -/
theorem send_rejected_noop (now : Nat) (send : Except Unit ChatReply)
    (s : AppState)
    (h : jsTrim s.inputMessage = "" ∨ s.isLoading = true) :
    handleSendMessage now send s = s := by
  unfold handleSendMessage
  rcases h with h | h
  · simp [h]
  · simp [h]

/-- Witness for C6 at a concrete whitespace-only input. -/
theorem send_rejected_noop_witness :
    handleSendMessage 5 (Except.ok { response := "x" })
        { messages := [welcomeMessage 0], inputMessage := "   ",
          isLoading := false, showResumeModal := false, resumeSessionId := none,
          sessionId := some "session-0-a", storedSessionId := some "session-0-a" } =
      { messages := [welcomeMessage 0], inputMessage := "   ",
        isLoading := false, showResumeModal := false, resumeSessionId := none,
        sessionId := some "session-0-a", storedSessionId := some "session-0-a" } :=
  send_rejected_noop 5 (Except.ok { response := "x" }) _ (Or.inl (by decide))

/-- C8: in every state in which the resume prompt is shown (covering both
the awaiting-choice and the resolving phase), the send-message input is
disabled and the typing/loading indicator does not render. -/
theorem modal_blocks_input_and_indicator (s : AppState)
    (h : s.showResumeModal = true) :
    inputDisabled s = true ∧ loadingIndicatorShown s = false := by
  simp [inputDisabled, loadingIndicatorShown, h]

/-- Witness for C8 at a concrete resolving state. -/
theorem modal_blocks_input_and_indicator_witness :
    inputDisabled
        { messages := [], inputMessage := "", isLoading := true,
          showResumeModal := true, resumeSessionId := some "session-1-a",
          sessionId := none, storedSessionId := some "session-1-a" } = true
    ∧ loadingIndicatorShown
        { messages := [], inputMessage := "", isLoading := true,
          showResumeModal := true, resumeSessionId := some "session-1-a",
          sessionId := none, storedSessionId := some "session-1-a" } = false :=
  modal_blocks_input_and_indicator _ rfl

/-- The message block appended by `n` successful turns has length `2 * n`. -/
theorem turnMessages_length (l : List Turn) :
    (turnMessages l).length = 2 * l.length := by
  induction l with
  | nil => rfl
  | cons t rest ih =>
    simp [turnMessages, ih]
    ring

/-- The roles of the appended block strictly alternate user/assistant. -/
theorem turnMessages_roles (l : List Turn) :
    (turnMessages l).map Message.role = uaRoles l.length := by
  induction l with
  | nil => rfl
  | cons t rest ih =>
    simp [turnMessages, uaRoles, turnUser, turnAssistant, ih]

/-- Shared shape lemma: a sequence of successful turns, each non-empty after
trimming and issued while not loading, appends exactly its user/assistant
pairs to the transcript and ends with the in-flight flag clear. -/
theorem runTurns_messages (l : List Turn) (s : AppState)
    (hload : s.isLoading = false) (htext : ∀ t ∈ l, jsTrim t.text ≠ "") :
    (runTurns l s).messages = s.messages ++ turnMessages l
    ∧ (runTurns l s).isLoading = false := by
  induction l generalizing s with
  | nil => simpa [runTurns, turnMessages] using hload
  | cons t rest ih =>
    have h1 : jsTrim t.text ≠ "" := htext t (by simp)
    have hsub : submitTurn t s =
        { s with
          messages := s.messages ++ [turnUser t, turnAssistant t],
          inputMessage := "",
          isLoading := false } := by
      simp [submitTurn, handleSendMessage, h1, hload, turnUser, turnAssistant]
    have ihr := ih
      { s with
        messages := s.messages ++ [turnUser t, turnAssistant t],
        inputMessage := "",
        isLoading := false }
      rfl (fun u hu => htext u (by simp [hu]))
    simp only [runTurns, hsub]
    constructor
    · rw [ihr.1]
      simp [turnMessages]
    · exact ihr.2

/-- C5 amended: after `N` successful send exchanges the transcript grows by
exactly `2 N` messages over its starting length, and those appended turns
strictly alternate user/assistant; starting from a freshly seeded transcript
this gives exactly `1 + 2 N` messages whose roles are the welcome assistant
followed by the strict user/assistant alternation. -/
theorem turns_transcript_shape (l : List Turn) (n0 : Nat) (r0 : String)
    (s : AppState) (hload : s.isLoading = false)
    (htext : ∀ t ∈ l, jsTrim t.text ≠ "") :
    ((runTurns l s).messages.length = s.messages.length + 2 * l.length)
    ∧ ((runTurns l (startNewSession n0 r0 s)).messages.map Message.role
        = "assistant" :: uaRoles l.length)
    ∧ ((runTurns l (startNewSession n0 r0 s)).messages.length
        = 1 + 2 * l.length) := by
  have g := runTurns_messages l s hload htext
  have hload2 : (startNewSession n0 r0 s).isLoading = false := hload
  have g2 := runTurns_messages l (startNewSession n0 r0 s) hload2 htext
  refine ⟨?_, ?_, ?_⟩
  · rw [g.1]
    simp [turnMessages_length]
  · rw [g2.1]
    simp [startNewSession, welcomeMessage, turnMessages_roles]
  · rw [g2.1]
    simp [startNewSession, turnMessages_length]
    omega

/-- Witness for the amended C5 at one concrete turn from a fresh session. -/
theorem turns_transcript_shape_witness :
    ((runTurns [{ text := "Merhaba", now := 60, reply := { response := "ok" } }]
        { messages := [], inputMessage := "", isLoading := false,
          showResumeModal := false, resumeSessionId := none,
          sessionId := none, storedSessionId := none }).messages.length
      = ({ messages := [], inputMessage := "", isLoading := false,
           showResumeModal := false, resumeSessionId := none,
           sessionId := none, storedSessionId := none } : AppState).messages.length
        + 2 * 1)
    ∧ ((runTurns [{ text := "Merhaba", now := 60, reply := { response := "ok" } }]
        (startNewSession 7 "abc"
          { messages := [], inputMessage := "", isLoading := false,
            showResumeModal := false, resumeSessionId := none,
            sessionId := none, storedSessionId := none })).messages.map
        Message.role = "assistant" :: uaRoles 1)
    ∧ ((runTurns [{ text := "Merhaba", now := 60, reply := { response := "ok" } }]
        (startNewSession 7 "abc"
          { messages := [], inputMessage := "", isLoading := false,
            showResumeModal := false, resumeSessionId := none,
            sessionId := none, storedSessionId := none })).messages.length
      = 1 + 2 * 1) :=
  turns_transcript_shape
    [{ text := "Merhaba", now := 60, reply := { response := "ok" } }] 7 "abc" _
    rfl (by decide)

/-- C5 counterexample: starting from the two-message restored transcript
`restoredTwo`, a single successful send exchange yields a transcript of four
messages, not the `1 + 2 * 1` the claim as stated would require. -/
theorem turns_count_counterexample :
    (runTurns [{ text := "Merhaba", now := 60, reply := { response := "ok" } }]
      restoredTwo).messages.length ≠ 1 + 2 * 1 := by decide

/-- C7: during a successful history restoration every server-reported role
of `ai` is mapped to `assistant` and every other role value passes through
unchanged into the transcript. -/
theorem resume_role_normalized (now : Nat) (rand rid : String)
    (ms : List ServerMessage) (s : AppState)
    (h1 : s.resumeSessionId = some rid) (h2 : rid ≠ "") (h3 : ms ≠ []) :
    (handleResumeSession now rand
        (Except.ok { found := true, data := some { messages := some ms } })
        s).messages.map Message.role
      = ms.map (fun m => if m.role = "ai" then "assistant" else m.role) := by
  rw [handleResumeSession_success_eq now rand rid ms s h1 h2 h3]
  simp [normalizeMsg]

/-- Witness for C7 at a history holding one `ai` and one `user` role. -/
theorem resume_role_normalized_witness :
    (handleResumeSession 9 "zzz"
        (Except.ok { found := true, data := some { messages := some (
          [{ role := "user", content := "a", timestamp := 1 },
           { role := "ai", content := "b", timestamp := 2 }]) } })
        { messages := [], inputMessage := "", isLoading := false,
          showResumeModal := true, resumeSessionId := some "session-9-x",
          sessionId := none, storedSessionId := some "session-9-x" }).messages.map
        Message.role
      = ["user", "assistant"] :=
  resume_role_normalized 9 "zzz" "session-9-x"
    [{ role := "user", content := "a", timestamp := 1 },
     { role := "ai", content := "b", timestamp := 2 }] _
    rfl (by decide) (by decide)

/-- C9: every message placed in the transcript by a successful history
restoration carries exactly the role (normalized), content and timestamp of
the corresponding server message, and every other server field (type,
completion flag, error flag) is dropped: the optional fields are absent. -/
theorem restored_messages_project_fields (now : Nat) (rand rid : String)
    (ms : List ServerMessage) (s : AppState)
    (h1 : s.resumeSessionId = some rid) (h2 : rid ≠ "") (h3 : ms ≠ []) :
    (handleResumeSession now rand
        (Except.ok { found := true, data := some { messages := some ms } })
        s).messages
      = ms.map (fun m =>
          ({ role := if m.role = "ai" then "assistant" else m.role,
             content := m.content, timestamp := m.timestamp,
             isError := none, type := none, isComplete := none } : Message)) := by
  rw [handleResumeSession_success_eq now rand rid ms s h1 h2 h3]
  rfl

/-- Witness for C9 at a server message carrying extra fields. -/
theorem restored_messages_project_fields_witness :
    (handleResumeSession 9 "zzz"
        (Except.ok { found := true, data := some { messages := some (
          [({ role := "ai", content := "b", timestamp := 2,
              type := some "question", is_complete := some true,
              isError := some true } : ServerMessage)]) } })
        { messages := [], inputMessage := "", isLoading := false,
          showResumeModal := true, resumeSessionId := some "session-9-x",
          sessionId := none, storedSessionId := some "session-9-x" }).messages
      = [({ role := "ai", content := "b", timestamp := 2,
            type := some "question", is_complete := some true,
            isError := some true } : ServerMessage)].map (fun m =>
          ({ role := if m.role = "ai" then "assistant" else m.role,
             content := m.content, timestamp := m.timestamp,
             isError := none, type := none, isComplete := none } : Message)) :=
  restored_messages_project_fields 9 "zzz" "session-9-x"
    [{ role := "ai", content := "b", timestamp := 2, type := some "question",
       is_complete := some true, isError := some true }] _
    rfl (by decide) (by decide)
